import Mathlib

/-!
Shallow embedding of the paper-search client of the research-agent
repository, centred on `searchPapers`
(src/frontend/src/features/paper-search/api/searchApi.ts, the revision
with a 40-poll budget), the shared API client
(src/frontend/src/shared/api/client.ts and its `apiConfig`), the search
form handler (SearchForm.tsx) and the `useSearchPapers` hook.

The backend is modelled as an oracle (`Backend`): each endpoint either
returns a value or an error string (a thrown `Error`).  `searchPapersRun`
re-traces the control flow of the TypeScript `searchPapers` and records
the externally visible effects (`Event` list) together with the resolved
paper list and whether the surrounding `catch` fired.
-/

/-- Job status values of the crawler job lifecycle.  The frontend models
file declaring the `JobStatus` union is not among the sources; the values
are modelled from the spec lifecycle: `pending`/`running` →
`completed`/`failed`/partial (constructor `partialStatus`). -/
inductive JobStatus
  | pending
  | running
  | completed
  | failed
  | partialStatus
deriving DecidableEq, Repr

/-- A crawler configuration as used by `searchPapers`: only `name` and
`source` are consulted. -/
structure CrawlerConfig where
  name : String
  source : String
deriving DecidableEq, Repr

/-- A paper record as used by `searchPapers`: only `job_id` is consulted
by the filter; `title` and `authors` stand for the payload fields.
`job_id` is `string | null` in the API schema, hence an `Option`. -/
structure Paper where
  title : String
  authors : List String
  job_id : Option String
deriving DecidableEq, Repr

/-- Body of the job-creation request built in step 2 of `searchPapers`. -/
structure CrawlerJobCreate where
  config_name : String
  query : Option String
  urls : Option (List String)
  max_papers : Option Int
deriving DecidableEq, Repr

/-- Response of `crawlerJobs.create`. -/
structure CreateResponse where
  created_ids : List String
deriving DecidableEq, Repr

/-- A crawler job as read back by `crawlerJobs.getById`; only `status`
is consulted by the polling loop. -/
structure CrawlerJob where
  status : JobStatus
deriving DecidableEq, Repr

/-- Parameters of `searchPapers` (the `SearchParams` type of the
feature): `query : string | null`, `urls : string[] | null`,
`source` (a source tag, lower-cased before matching), and
`max_papers : number | null`. -/
structure SearchParams where
  query : Option String
  urls : Option (List String)
  source : String
  maxPapers : Option Int
deriving DecidableEq, Repr

/-- Backend oracle: the response each endpoint would give.  `jobsGetById`
receives the job id used in the request path (possibly `undefined` when
`created_ids` was empty) and the index of the poll, so the polled status
may evolve over time.  `Except.error` models a thrown request error. -/
structure Backend where
  configsList : Except String (List CrawlerConfig)
  jobsCreate : CrawlerJobCreate → Except String CreateResponse
  jobsGetById : Option String → Nat → Except String CrawlerJob
  papersList : Except String (List Paper)

/-- Externally visible effects of one `searchPapers` run. -/
inductive Event
  | fetchConfigs
  | createJob (body : CrawlerJobCreate)
  | delay (ms : Nat)
  | pollStatus (jobId : Option String)
  | alertMsg (msg : String)
  | listPapers
deriving DecidableEq, Repr

/-- Result of a `searchPapers` run: the list the promise resolves with,
the effect trace, and whether the `catch` block fired on the way. -/
structure RunResult where
  papers : List Paper
  trace : List Event
  errored : Bool
deriving DecidableEq, Repr

/-- How the polling loop of `searchPapers` ended. -/
inductive PollOutcome
  | ok
  | timedOut
  | jobFailed
  | apiError (msg : String)
deriving DecidableEq, Repr

/-- The constant `TIMEOUT = 3000` (3 seconds between polls) in `searchPapers`. -/
def TIMEOUT : Nat := 3000

/-- The constant `MAX_RETRIES = 40` (40 polls × 3 s = 2 minutes) in `searchPapers`. -/
def MAX_RETRIES : Nat := 40

/-- The timeout message alerted and thrown when the poll budget runs out. -/
def timeoutMsg : String := "Job timed out - paper retrieval took too long"

/-- Step 3 of `searchPapers`: the
`while (status !== "completed" && retryCount < MAX_RETRIES)` loop.
Arguments: current `status`, current `retryCount` (used as the poll
index), and the remaining loop budget `MAX_RETRIES - retryCount`.
Each iteration waits `TIMEOUT` ms, polls `jobsGetById`, and either
throws on a request error, throws on `failed`, or continues. -/
def pollLoop (env : Backend) (jid : Option String) :
    JobStatus → Nat → Nat → List Event × PollOutcome
  | status, _, 0 => if status = .completed then ([], .ok) else ([], .timedOut)
  | status, k, r + 1 =>
    if status = .completed then ([], .ok)
    else
      match env.jobsGetById jid k with
      | .error e => ([.delay TIMEOUT, .pollStatus jid], .apiError e)
      | .ok job =>
        if job.status = .failed then
          ([.delay TIMEOUT, .pollStatus jid], .jobFailed)
        else
          let rest := pollLoop env jid job.status (k + 1) r
          (.delay TIMEOUT :: .pollStatus jid :: rest.1, rest.2)

/-- Model of `source.toLowerCase()` on the ASCII source tags, written over the
character list so it computes by kernel reduction. -/
def jsToLower (s : String) : String := ⟨s.data.map Char.toLower⟩

/-- JS `String.prototype.trim`: strip leading and trailing whitespace. -/
def jsTrim (s : String) : String :=
  ⟨((s.data.dropWhile Char.isWhitespace).reverse.dropWhile
      Char.isWhitespace).reverse⟩

/-- Model of the JS `split` on newline. -/
def jsSplitLines (s : String) : List String :=
  (s.data.splitOn '\n').map (fun cs => ⟨cs⟩)

/-- Decimal digit-string parser backing the model of `Number(...)` on
the values a `type="number"` input produces. -/
def parseDigits : List Char → Option Nat
  | [] => none
  | ds =>
    if ds.all Char.isDigit then
      some (ds.foldl (fun n c => 10 * n + (c.toNat - 48)) 0)
    else none

/-- Model of `Number(...)` on integer strings (sign plus digits). -/
def parseIntStr (s : String) : Option Int :=
  match s.data with
  | '-' :: ds => (parseDigits ds).map (fun n => -(n : Int))
  | ds => (parseDigits ds).map (fun n => (n : Int))

/-- JS strict equality for the filter `p.job_id === jobId`: `p.job_id`
is `string | null`, `jobId` is `string | undefined`, so the comparison
is true only when both are the same string (`null === undefined` is
false in JS). -/
def strictIdEq : Option String → Option String → Bool
  | some a, some b => a = b
  | _, _ => false

/-- Steps 3–4 of `searchPapers`, after `crawlerJobs.create` succeeded
with response `jobRes`: take `created_ids[0]` as the job id, run the
polling loop, and on `completed` list the papers and filter them by job
id; the timeout path alerts and throws, `failed` and request errors
throw; every throw is caught by the surrounding `catch` and resolves
with the empty list. -/
def afterCreate (env : Backend) (body : CrawlerJobCreate)
    (jobRes : CreateResponse) : RunResult :=
  let jobId := jobRes.created_ids.head?
  let res := pollLoop env jobId .pending 0 MAX_RETRIES
  let fin : List Paper × List Event × Bool :=
    match res.2 with
    | .apiError _ => ([], [], true)
    | .jobFailed => ([], [], true)
    | .timedOut => ([], [.alertMsg timeoutMsg], true)
    | .ok =>
      match env.papersList with
      | .error _ => ([], [.listPapers], true)
      | .ok papers =>
        (papers.filter (fun q => strictIdEq q.job_id jobId),
         [.listPapers], false)
  ⟨fin.1, .fetchConfigs :: .createJob body :: (res.1 ++ fin.2.1),
    fin.2.2⟩

/-- Shallow embedding of the non-mock path of `searchPapers`
(searchApi.ts).  Step 1 lists configs and matches on the lower-cased
source; step 2 submits the job; steps 3–4 are `afterCreate`.  Any
thrown error is caught and the call resolves with the empty list
(`errored` records that the catch fired). -/
def searchPapersRun (env : Backend) (p : SearchParams) : RunResult :=
  match env.configsList with
  | .error _ => ⟨[], [.fetchConfigs], true⟩
  | .ok configs =>
    match configs.find? (fun c => c.source = jsToLower p.source) with
    | none => ⟨[], [.fetchConfigs], true⟩
    | some matchedConfig =>
      let body : CrawlerJobCreate :=
        { config_name := matchedConfig.name
          query := p.query
          urls := p.urls
          max_papers := p.maxPapers }
      match env.jobsCreate body with
      | .error _ => ⟨[], [.fetchConfigs, .createJob body], true⟩
      | .ok jobRes => afterCreate env body jobRes

/-- Holds exactly on `pollStatus` events. -/
def Event.isPoll : Event → Bool
  | .pollStatus _ => true
  | _ => false

/-- Number of status polls recorded in a trace. -/
def pollCount (t : List Event) : Nat := t.countP Event.isPoll

/-- The event block of `n` poll iterations against job id `jid`: each
poll is preceded by its 3-second delay. -/
def pollEvents (jid : Option String) : Nat → List Event
  | 0 => []
  | n + 1 => .delay TIMEOUT :: .pollStatus jid :: pollEvents jid n

/-- Embedding of `apiCall` (client.ts): consults the transport exactly
once (attempt 0); on error it throws `errorMessage: error`.  The second
component counts the request attempts actually issued. -/
def apiCall {α : Type} (transport : Nat → Except String α)
    (errorMessage : String) : Except String α × Nat :=
  match transport 0 with
  | .ok d => (.ok d, 1)
  | .error e => (.error (errorMessage ++ ": " ++ e), 1)

/-- The retry block of `apiConfig` (shared/api/config.ts). -/
structure RetryConfig where
  attempts : Nat
  delay : Nat
  backoffFactor : Nat
deriving DecidableEq, Repr

/-- Shape of `apiConfig` (shared/api/config.ts): base URL, default header,
request timeout and retry policy. -/
structure ApiConfig where
  baseUrl : String
  contentType : String
  timeout : Nat
  retry : RetryConfig
deriving DecidableEq, Repr

/-- The concrete `apiConfig` literal. -/
def apiConfig : ApiConfig :=
  { baseUrl := "http://localhost:8000"
    contentType := "application/json"
    timeout := 10000
    retry := { attempts := 3, delay := 1000, backoffFactor := 2 } }

/-- Embedding of `handleSubmit` of SearchForm.tsx: trims the query (empty → `null`),
trims the URLs textarea and splits it into non-blank lines (all-blank →
`null`), and parses the max-papers field (empty → `null`; the numeric
input is modelled as integer parsing). -/
def handleSubmit (queryText urlsText maxPapersText source : String) :
    SearchParams :=
  let urlsTrimmed := jsTrim urlsText
  let urls : Option (List String) :=
    if urlsTrimmed = "" then none
    else some (((jsSplitLines urlsTrimmed).map jsTrim).filter
      (fun u => u.length > 0))
  { query := if jsTrim queryText = "" then none else some (jsTrim queryText)
    urls := urls
    source := source
    maxPapers :=
      if maxPapersText = "" then none else parseIntStr maxPapersText }

/-- Modelled from the spec: the backend's job-creation validation (the
backend Python sources are not under src/).  "Validates at least one of
`query`/`urls` is non-empty; fails with `InvalidRequest` otherwise." -/
def jobCreateHasInput (body : CrawlerJobCreate) : Bool :=
  (match body.query with | some q => q ≠ "" | none => false)
  || (match body.urls with | some us => us ≠ [] | none => false)

/-- State of the `useSearchPapers` hook. -/
structure HookState where
  results : List Paper
  loading : Bool
deriving DecidableEq, Repr

/-- Embedding of the `search` function of `useSearchPapers`: sets
`loading` to true, awaits `searchPapers` (its outcome is the argument:
a resolved list or a thrown error), stores the list on success and `[]`
on error, and finally clears `loading`.  Returns the state after the
invocation completes. -/
def searchHook (outcome : Except String (List Paper)) (s : HookState) :
    HookState :=
  let s1 : HookState := { s with loading := true }
  let s2 : HookState :=
    match outcome with
    | .ok data => { s1 with results := data }
    | .error _ => { s1 with results := [] }
  { s2 with loading := false }

section ConcreteEnvironments

/-- A paper stamped with the job id the concrete runs create. -/
def paperMine : Paper := ⟨"Paper A", ["X"], some "job-1"⟩

/-- A paper stamped with a different job id. -/
def paperOther : Paper := ⟨"Paper B", ["Y"], some "job-2"⟩

/-- A paper with a `null` job id. -/
def paperNull : Paper := ⟨"Paper C", [], none⟩

/-- A backend whose polls always answer `running`. -/
def envRunning : Backend :=
  { configsList := .ok [⟨"acl-default", "acl_anthology"⟩]
    jobsCreate := fun _ => .ok ⟨["job-1"]⟩
    jobsGetById := fun _ _ => .ok ⟨.running⟩
    papersList := .ok [] }

/-- A backend whose polls always answer the `partial` status. -/
def envPartial : Backend :=
  { envRunning with jobsGetById := fun _ _ => .ok ⟨.partialStatus⟩ }

/-- A backend whose first poll already answers `completed`, with a paper
list mixing the created job's id, another id, and `null`. -/
def envCompleted : Backend :=
  { envRunning with
    jobsGetById := fun _ _ => .ok ⟨.completed⟩
    papersList := .ok [paperMine, paperOther, paperNull] }

/-- A backend whose first poll answers `failed`. -/
def envFailed : Backend :=
  { envRunning with jobsGetById := fun _ _ => .ok ⟨.failed⟩ }

/-- A backend that knows only the arxiv config. -/
def envArxivOnly : Backend :=
  { envRunning with configsList := .ok [⟨"arxiv-default", "arxiv"⟩] }

/-- A backend enforcing the spec-modelled job-creation validation:
requests without query/urls input are rejected with `InvalidRequest`. -/
def envValidating : Backend :=
  { envRunning with
    jobsGetById := fun _ _ => .ok ⟨.completed⟩
    jobsCreate := fun body =>
      if jobCreateHasInput body then .ok ⟨["job-1"]⟩
      else .error "InvalidRequest" }

/-- Default parameters used by the concrete runs. -/
def paramsQ : SearchParams :=
  { query := some "llm", urls := none, source := "acl_anthology",
    maxPapers := none }

example : pollCount (searchPapersRun envRunning paramsQ).trace = 40 := by
  decide

example : (searchPapersRun envRunning paramsQ).papers = [] := by decide

example :
    (searchPapersRun envRunning paramsQ).trace.contains
      (.alertMsg timeoutMsg) = true := by decide

end ConcreteEnvironments

section PollLoopLemmas

theorem pollLoop_completed (env : Backend) (jid : Option String)
    (k r : Nat) : pollLoop env jid .completed k r = ([], .ok) := by
  cases r <;> simp [pollLoop]

theorem pollLoop_step (env : Backend) (jid : Option String)
    (status : JobStatus) (k r : Nat) (job : CrawlerJob)
    (hst : status ≠ .completed)
    (hjob : env.jobsGetById jid k = .ok job) (hf : job.status ≠ .failed) :
    pollLoop env jid status k (r + 1) =
      (Event.delay TIMEOUT :: Event.pollStatus jid ::
        (pollLoop env jid job.status (k + 1) r).1,
       (pollLoop env jid job.status (k + 1) r).2) := by
  simp [pollLoop, hst, hjob, hf]

theorem pollLoop_step_failed (env : Backend) (jid : Option String)
    (status : JobStatus) (k r : Nat) (job : CrawlerJob)
    (hst : status ≠ .completed)
    (hjob : env.jobsGetById jid k = .ok job) (hf : job.status = .failed) :
    pollLoop env jid status k (r + 1) =
      ([Event.delay TIMEOUT, Event.pollStatus jid], .jobFailed) := by
  simp [pollLoop, hst, hjob, hf]

/-- If every poll from index `k` on answers a status that is neither
`completed` nor `failed`, the loop runs through its whole remaining
budget `r` and times out, emitting `r` delay-poll pairs. -/
theorem pollLoop_all_nonterminal (env : Backend) (jid : Option String)
    (s : Nat → JobStatus)
    (hs : ∀ n, env.jobsGetById jid n = .ok ⟨s n⟩)
    (hnc : ∀ n, s n ≠ .completed) (hnf : ∀ n, s n ≠ .failed) :
    ∀ r k status, status ≠ .completed →
      pollLoop env jid status k r = (pollEvents jid r, .timedOut) := by
  intro r
  induction r with
  | zero =>
    intro k status hst
    simp [pollLoop, pollEvents, hst]
  | succ r ih =>
    intro k status hst
    rw [pollLoop_step env jid status k r ⟨s k⟩ hst (hs k) (hnf k)]
    rw [ih (k + 1) (s k) (hnc k)]
    rfl

/-- If the polls from index `k` on answer non-terminal statuses until
index `k + i`, where the poll answers `completed` (resp. `failed`), the
loop stops after exactly `i + 1` polls with outcome `ok`
(resp. `jobFailed`). -/
theorem pollLoop_first_exit (env : Backend) (jid : Option String)
    (s : Nat → JobStatus)
    (hs : ∀ n, env.jobsGetById jid n = .ok ⟨s n⟩) :
    ∀ i r k status, status ≠ .completed → i < r →
      (∀ j, j < i → s (k + j) ≠ .completed ∧ s (k + j) ≠ .failed) →
      ((s (k + i) = .completed →
          pollLoop env jid status k r = (pollEvents jid (i + 1), .ok)) ∧
       (s (k + i) = .failed →
          pollLoop env jid status k r =
            (pollEvents jid (i + 1), .jobFailed))) := by
  intro i
  induction i with
  | zero =>
    intro r k status hst hir hj
    obtain ⟨r', rfl⟩ : ∃ r', r = r' + 1 := ⟨r - 1, by omega⟩
    constructor
    · intro hc
      have hnf : (⟨s (k + 0)⟩ : CrawlerJob).status ≠ .failed := by
        simp only [Nat.add_zero] at hc ⊢
        rw [hc]; intro h; cases h
      rw [pollLoop_step env jid status k r' ⟨s k⟩ hst (hs k)
        (by simpa using hnf)]
      simp only [Nat.add_zero] at hc
      simp [hc, pollLoop_completed, pollEvents]
    · intro hf
      simp only [Nat.add_zero] at hf
      rw [pollLoop_step_failed env jid status k r' ⟨s k⟩ hst (hs k)
        (by simpa using hf)]
      simp [pollEvents]
  | succ i ih =>
    intro r k status hst hir hj
    obtain ⟨r', rfl⟩ : ∃ r', r = r' + 1 := ⟨r - 1, by omega⟩
    have h0 := hj 0 (Nat.succ_pos i)
    simp only [Nat.add_zero] at h0
    have hstep := pollLoop_step env jid status k r' ⟨s k⟩ hst (hs k)
      (by simpa using h0.2)
    have hrec := ih r' (k + 1) (s k) (by simpa using h0.1) (by omega)
      (fun j hji => by
        have := hj (j + 1) (by omega)
        constructor
        · have h := this.1
          simpa [Nat.add_assoc, Nat.add_comm 1 j] using h
        · have h := this.2
          simpa [Nat.add_assoc, Nat.add_comm 1 j] using h)
    have harith : k + 1 + i = k + (i + 1) := by omega
    constructor
    · intro hc
      rw [hstep]
      rw [hrec.1 (by rw [harith]; exact hc)]
      rfl
    · intro hf
      rw [hstep]
      rw [hrec.2 (by rw [harith]; exact hf)]
      rfl

theorem pollCount_nil : pollCount [] = 0 := rfl

theorem pollCount_cons (e : Event) (t : List Event) :
    pollCount (e :: t) = pollCount t + (if e.isPoll then 1 else 0) :=
  List.countP_cons _ _ _

theorem pollCount_append (t u : List Event) :
    pollCount (t ++ u) = pollCount t + pollCount u :=
  List.countP_append _ _ _

theorem pollCount_pollEvents (jid : Option String) (n : Nat) :
    pollCount (pollEvents jid n) = n := by
  induction n with
  | zero => rfl
  | succ n ih =>
    simp [pollEvents, pollCount_cons, Event.isPoll, ih]

/-- Every event of a `pollEvents` block is a delay or a poll against
the given job id. -/
theorem mem_pollEvents (jid : Option String) (n : Nat) (e : Event)
    (he : e ∈ pollEvents jid n) :
    e = .delay TIMEOUT ∨ e = .pollStatus jid := by
  induction n with
  | zero => cases he
  | succ n ih =>
    simp only [pollEvents, List.mem_cons] at he
    rcases he with h | h | h
    · exact Or.inl h
    · exact Or.inr h
    · exact ih h

end PollLoopLemmas

section RunLemmas

/-- Unfolding of `searchPapersRun` once the config matched and the job
was created. -/
theorem searchPapersRun_eq_afterCreate (env : Backend) (p : SearchParams)
    (cfgs : List CrawlerConfig) (cfg : CrawlerConfig)
    (res : CreateResponse)
    (h1 : env.configsList = .ok cfgs)
    (h2 : cfgs.find? (fun c => c.source = jsToLower p.source) = some cfg)
    (h3 : env.jobsCreate ⟨cfg.name, p.query, p.urls, p.maxPapers⟩ =
      .ok res) :
    searchPapersRun env p =
      afterCreate env ⟨cfg.name, p.query, p.urls, p.maxPapers⟩ res := by
  simp [searchPapersRun, h1, h2, h3]

end RunLemmas

/-- C1: in the non-mock path, when the job is created and every status
poll answers a status other than `completed` and other than `failed`,
the client performs exactly 40 status polls, each preceded by the
3-second delay (the 2-minute client-side poll budget), then reports the
timeout error "Job timed out - paper retrieval took too long" and the
call resolves with no papers. -/
theorem C1_timeout_after_40_polls (env : Backend) (p : SearchParams)
    (cfgs : List CrawlerConfig) (cfg : CrawlerConfig)
    (res : CreateResponse) (s : Nat → JobStatus)
    (h1 : env.configsList = .ok cfgs)
    (h2 : cfgs.find? (fun c => c.source = jsToLower p.source) = some cfg)
    (h3 : env.jobsCreate ⟨cfg.name, p.query, p.urls, p.maxPapers⟩ =
      .ok res)
    (hs : ∀ n, env.jobsGetById res.created_ids.head? n = .ok ⟨s n⟩)
    (hnc : ∀ n, s n ≠ .completed) (hnf : ∀ n, s n ≠ .failed) :
    searchPapersRun env p =
      ⟨[], .fetchConfigs ::
            .createJob ⟨cfg.name, p.query, p.urls, p.maxPapers⟩ ::
            (pollEvents res.created_ids.head? 40 ++
              [.alertMsg timeoutMsg]), true⟩
    ∧ pollCount (searchPapersRun env p).trace = 40 := by
  have hrun := searchPapersRun_eq_afterCreate env p cfgs cfg res h1 h2 h3
  have hpoll := pollLoop_all_nonterminal env res.created_ids.head? s hs
    hnc hnf MAX_RETRIES 0 .pending (by intro h; cases h)
  have htrace : searchPapersRun env p =
      ⟨[], .fetchConfigs ::
            .createJob ⟨cfg.name, p.query, p.urls, p.maxPapers⟩ ::
            (pollEvents res.created_ids.head? 40 ++
              [.alertMsg timeoutMsg]), true⟩ := by
    rw [hrun]
    simp only [afterCreate, hpoll]
    rfl
  refine ⟨htrace, ?_⟩
  rw [htrace]
  simp [pollCount_cons, pollCount_append, pollCount_nil, Event.isPoll,
    pollCount_pollEvents]

/-- Witness for C1: on the concrete all-`running` backend the run
produces the 40-poll timeout trace with no papers. -/
theorem C1_witness :
    searchPapersRun envRunning paramsQ =
      ⟨[], .fetchConfigs ::
            .createJob ⟨"acl-default", some "llm", none, none⟩ ::
            (pollEvents (some "job-1") 40 ++ [.alertMsg timeoutMsg]),
        true⟩
    ∧ pollCount (searchPapersRun envRunning paramsQ).trace = 40 :=
  C1_timeout_after_40_polls envRunning paramsQ
    [⟨"acl-default", "acl_anthology"⟩] ⟨"acl-default", "acl_anthology"⟩
    ⟨["job-1"]⟩ (fun _ => JobStatus.running) rfl (by decide) rfl
    (fun _ => rfl)
    (fun _ => (by decide : JobStatus.running ≠ JobStatus.completed))
    (fun _ => (by decide : JobStatus.running ≠ JobStatus.failed))

/-- C2 counterexample: on a backend whose very first status poll
answers `partial`, the polling loop does not stop: the run issues all
40 polls (not 1) and never lists papers — `partial` is not a terminal
state for this loop, contrary to the claim. -/
theorem C2_counterexample :
    envPartial.jobsGetById (some "job-1") 0 = .ok ⟨.partialStatus⟩
    ∧ pollCount (searchPapersRun envPartial paramsQ).trace = 40
    ∧ (40 : Nat) ≠ 1
    ∧ Event.listPapers ∉ (searchPapersRun envPartial paramsQ).trace :=
  ⟨rfl, by decide, by decide, by decide⟩

/-- C2 (amended): the polling loop of `searchPapers` treats only
`completed` and `failed` as terminal: when poll `i` is the first to
answer `completed` or `failed`, exactly `i + 1` polls are issued; a job
that answers `partial` on every poll is polled the full 40 times, after
which the run times out and resolves with no papers (no paper listing
occurs for it). -/
theorem C2_only_completed_failed_stop_polling (env : Backend)
    (p : SearchParams) (cfgs : List CrawlerConfig) (cfg : CrawlerConfig)
    (res : CreateResponse) (s : Nat → JobStatus)
    (h1 : env.configsList = .ok cfgs)
    (h2 : cfgs.find? (fun c => c.source = jsToLower p.source) = some cfg)
    (h3 : env.jobsCreate ⟨cfg.name, p.query, p.urls, p.maxPapers⟩ =
      .ok res)
    (hs : ∀ n, env.jobsGetById res.created_ids.head? n = .ok ⟨s n⟩) :
    (∀ i, i < 40 → (∀ j, j < i → s j ≠ .completed ∧ s j ≠ .failed) →
      (s i = .completed ∨ s i = .failed) →
      pollCount (searchPapersRun env p).trace = i + 1)
    ∧ ((∀ n, s n = .partialStatus) →
      pollCount (searchPapersRun env p).trace = 40
      ∧ (searchPapersRun env p).papers = []) := by
  have hrun := searchPapersRun_eq_afterCreate env p cfgs cfg res h1 h2 h3
  constructor
  · intro i hi hpre hterm
    have hexit := pollLoop_first_exit env res.created_ids.head? s hs i
      MAX_RETRIES 0 .pending (by intro h; cases h)
      (by simpa [MAX_RETRIES] using hi)
      (fun j hj => by simpa using hpre j hj)
    rcases hterm with hc | hf
    · have hpoll := hexit.1 (by simpa using hc)
      rw [hrun]
      cases hpl : env.papersList with
      | error e =>
        simp only [afterCreate, hpoll, hpl]
        simp [pollCount_cons, pollCount_append, pollCount_nil,
          Event.isPoll, pollCount_pollEvents]
      | ok papers =>
        simp only [afterCreate, hpoll, hpl]
        simp [pollCount_cons, pollCount_append, pollCount_nil,
          Event.isPoll, pollCount_pollEvents]
    · have hpoll := hexit.2 (by simpa using hf)
      rw [hrun]
      simp only [afterCreate, hpoll]
      simp [pollCount_cons, pollCount_append, pollCount_nil,
        Event.isPoll, pollCount_pollEvents]
  · intro hp
    have hpoll := pollLoop_all_nonterminal env res.created_ids.head? s hs
      (fun n => by rw [hp n]; intro h; cases h)
      (fun n => by rw [hp n]; intro h; cases h)
      MAX_RETRIES 0 .pending (by intro h; cases h)
    rw [hrun]
    simp only [afterCreate, hpoll]
    refine ⟨?_, trivial⟩
    simp [pollCount_cons, pollCount_append, pollCount_nil,
      Event.isPoll, pollCount_pollEvents, MAX_RETRIES]

/-- Witness for C2 (amended): a first poll answering `completed` ends
polling after exactly one poll. -/
theorem C2_witness :
    pollCount (searchPapersRun envCompleted paramsQ).trace = 1 :=
  (C2_only_completed_failed_stop_polling envCompleted paramsQ
    [⟨"acl-default", "acl_anthology"⟩] ⟨"acl-default", "acl_anthology"⟩
    ⟨["job-1"]⟩ (fun _ => JobStatus.completed) rfl (by decide) rfl
    (fun _ => rfl)).1 0 (by decide)
    (fun j hj => absurd hj (Nat.not_lt_zero j)) (Or.inl rfl)

/-- C5: when a status poll answers `failed` (all earlier polls having
answered a non-terminal status) after a successful synchronous job
submission, `searchPapers` stops polling at that poll, issues no
paper-list request, and the call resolves with the empty list — the
failure is learned only from the polled status. -/
theorem C5_failed_poll_stops_and_resolves_empty (env : Backend)
    (p : SearchParams) (cfgs : List CrawlerConfig) (cfg : CrawlerConfig)
    (res : CreateResponse) (s : Nat → JobStatus)
    (h1 : env.configsList = .ok cfgs)
    (h2 : cfgs.find? (fun c => c.source = jsToLower p.source) = some cfg)
    (h3 : env.jobsCreate ⟨cfg.name, p.query, p.urls, p.maxPapers⟩ =
      .ok res)
    (hs : ∀ n, env.jobsGetById res.created_ids.head? n = .ok ⟨s n⟩)
    (i : Nat) (hi : i < 40)
    (hpre : ∀ j, j < i → s j ≠ .completed ∧ s j ≠ .failed)
    (hf : s i = .failed) :
    searchPapersRun env p =
      ⟨[], .fetchConfigs ::
            .createJob ⟨cfg.name, p.query, p.urls, p.maxPapers⟩ ::
            pollEvents res.created_ids.head? (i + 1), true⟩
    ∧ pollCount (searchPapersRun env p).trace = i + 1
    ∧ Event.listPapers ∉ (searchPapersRun env p).trace := by
  have hrun := searchPapersRun_eq_afterCreate env p cfgs cfg res h1 h2 h3
  have hpoll := (pollLoop_first_exit env res.created_ids.head? s hs i
    MAX_RETRIES 0 .pending (by intro h; cases h)
    (by simpa [MAX_RETRIES] using hi)
    (fun j hj => by simpa using hpre j hj)).2 (by simpa using hf)
  have htrace : searchPapersRun env p =
      ⟨[], .fetchConfigs ::
            .createJob ⟨cfg.name, p.query, p.urls, p.maxPapers⟩ ::
            pollEvents res.created_ids.head? (i + 1), true⟩ := by
    rw [hrun]
    simp [afterCreate, hpoll]
  refine ⟨htrace, ?_, ?_⟩
  · rw [htrace]
    simp [pollCount_cons, Event.isPoll, pollCount_pollEvents]
  · rw [htrace]
    intro hmem
    simp only [List.mem_cons] at hmem
    rcases hmem with h | h | h
    · cases h
    · cases h
    · rcases mem_pollEvents _ _ _ h with h' | h' <;> cases h'

/-- Witness for C5: a first poll answering `failed` gives one poll, no
paper-list request and the empty-list resolution. -/
theorem C5_witness :
    searchPapersRun envFailed paramsQ =
      ⟨[], .fetchConfigs ::
            .createJob ⟨"acl-default", some "llm", none, none⟩ ::
            pollEvents (some "job-1") 1, true⟩
    ∧ pollCount (searchPapersRun envFailed paramsQ).trace = 1
    ∧ Event.listPapers ∉ (searchPapersRun envFailed paramsQ).trace :=
  C5_failed_poll_stops_and_resolves_empty envFailed paramsQ
    [⟨"acl-default", "acl_anthology"⟩] ⟨"acl-default", "acl_anthology"⟩
    ⟨["job-1"]⟩ (fun _ => JobStatus.failed) rfl (by decide) rfl
    (fun _ => rfl) 0 (by decide)
    (fun j hj => absurd hj (Nat.not_lt_zero j)) rfl

/-- C6: when the returned configs contain no entry whose `source`
equals the lowercased requested source, `searchPapers` issues no
job-creation request and resolves with the empty list. -/
theorem C6_no_matching_config_no_job (env : Backend) (p : SearchParams)
    (cfgs : List CrawlerConfig)
    (h1 : env.configsList = .ok cfgs)
    (h2 : ∀ c ∈ cfgs, c.source ≠ jsToLower p.source) :
    searchPapersRun env p = ⟨[], [.fetchConfigs], true⟩
    ∧ ∀ b, Event.createJob b ∉ (searchPapersRun env p).trace := by
  have hfind : cfgs.find? (fun c => c.source = jsToLower p.source) =
      none := by
    rw [List.find?_eq_none]
    intro c hc
    simp [h2 c hc]
  have htr : searchPapersRun env p = ⟨[], [.fetchConfigs], true⟩ := by
    simp [searchPapersRun, h1, hfind]
  refine ⟨htr, ?_⟩
  intro b hb
  rw [htr] at hb
  simp at hb

theorem strictIdEq_some (o : Option String) (j : String) :
    strictIdEq o (some j) = true ↔ o = some j := by
  cases o <;> simp [strictIdEq]

/-- C4: for every non-mock run that completes successfully (a poll
answers `completed` and the paper listing succeeds), the result is the
fetched papers filtered by the created job's id: every returned paper
has `job_id` equal to `created_ids[0]` of the job created by this call,
and every fetched paper whose `job_id` differs is excluded. -/
theorem C4_result_filtered_by_job_id (env : Backend) (p : SearchParams)
    (cfgs : List CrawlerConfig) (cfg : CrawlerConfig)
    (res : CreateResponse) (s : Nat → JobStatus)
    (h1 : env.configsList = .ok cfgs)
    (h2 : cfgs.find? (fun c => c.source = jsToLower p.source) = some cfg)
    (h3 : env.jobsCreate ⟨cfg.name, p.query, p.urls, p.maxPapers⟩ =
      .ok res)
    (hs : ∀ n, env.jobsGetById res.created_ids.head? n = .ok ⟨s n⟩)
    (i : Nat) (hi : i < 40)
    (hpre : ∀ j, j < i → s j ≠ .completed ∧ s j ≠ .failed)
    (hc : s i = .completed)
    (j0 : String) (rest : List String)
    (hids : res.created_ids = j0 :: rest)
    (papers : List Paper) (hpl : env.papersList = .ok papers) :
    (searchPapersRun env p).papers =
      papers.filter (fun q => strictIdEq q.job_id (some j0))
    ∧ (∀ q ∈ (searchPapersRun env p).papers, q.job_id = some j0)
    ∧ (∀ q ∈ papers, q.job_id ≠ some j0 →
        q ∉ (searchPapersRun env p).papers) := by
  have hrun := searchPapersRun_eq_afterCreate env p cfgs cfg res h1 h2 h3
  have hpoll := (pollLoop_first_exit env res.created_ids.head? s hs i
    MAX_RETRIES 0 .pending (by intro h; cases h)
    (by simpa [MAX_RETRIES] using hi)
    (fun j hj => by simpa using hpre j hj)).1 (by simpa using hc)
  have hhead : res.created_ids.head? = some j0 := by rw [hids]; rfl
  rw [hhead] at hpoll
  have hres : (searchPapersRun env p).papers =
      papers.filter (fun q => strictIdEq q.job_id (some j0)) := by
    rw [hrun]
    simp [afterCreate, hhead, hpoll, hpl]
  refine ⟨hres, ?_, ?_⟩
  · intro q hq
    rw [hres] at hq
    exact (strictIdEq_some q.job_id j0).mp (List.mem_filter.mp hq).2
  · intro q _ hne hq
    rw [hres] at hq
    exact hne ((strictIdEq_some q.job_id j0).mp
      (List.mem_filter.mp hq).2)

/-- Witness for C4: the completed run against a backend listing papers
for the created job, a different job, and a null job id returns exactly
the paper of the created job. -/
theorem C4_witness :
    (searchPapersRun envCompleted paramsQ).papers = [paperMine]
    ∧ paperMine.job_id = some "job-1"
    ∧ paperOther ∉ (searchPapersRun envCompleted paramsQ).papers
    ∧ paperNull ∉ (searchPapersRun envCompleted paramsQ).papers := by
  have h := C4_result_filtered_by_job_id envCompleted paramsQ
    [⟨"acl-default", "acl_anthology"⟩] ⟨"acl-default", "acl_anthology"⟩
    ⟨["job-1"]⟩ (fun _ => JobStatus.completed) rfl (by decide) rfl
    (fun _ => rfl) 0 (by decide)
    (fun j hj => absurd hj (Nat.not_lt_zero j)) rfl
    "job-1" [] rfl [paperMine, paperOther, paperNull] rfl
  exact ⟨h.1.trans (by decide), by decide,
    h.2.2 paperOther (by decide) (by decide),
    h.2.2 paperNull (by decide) (by decide)⟩

/-- C3 counterexample: a request whose transport fails is issued
exactly once and its error reported immediately — not retried to the
configured 3 attempts. -/
theorem C3_counterexample :
    (apiCall (fun _ => (.error "boom" : Except String Nat)) "Failed").2
      = 1
    ∧ (apiCall (fun _ => (.error "boom" : Except String Nat))
        "Failed").1 = .error ("Failed" ++ ": " ++ "boom")
    ∧ apiConfig.retry.attempts = 3
    ∧ (1 : Nat) ≠ 3 :=
  ⟨rfl, rfl, rfl, by decide⟩

/-- C3 (amended): `apiConfig` declares a retry policy (3 attempts,
1000 ms base delay, backoff factor 2), but the client's `apiCall` never
applies it: every request is issued exactly once, and a failing request
reports its composed error to the caller immediately after that single
attempt, with no retry and no backoff delay. -/
theorem C3_single_attempt_no_retry {α : Type}
    (transport : Nat → Except String α) (msg e : String)
    (hfail : transport 0 = .error e) :
    (apiCall transport msg).2 = 1
    ∧ (apiCall transport msg).1 = .error (msg ++ ": " ++ e)
    ∧ apiConfig.retry = ⟨3, 1000, 2⟩ := by
  refine ⟨?_, ?_, rfl⟩ <;> simp [apiCall, hfail]

/-- Witness for C3 (amended): the concrete failing transport. -/
theorem C3_witness :
    (apiCall (fun _ => (.error "timeout" : Except String Nat))
      "Failed to fetch papers").2 = 1
    ∧ (apiCall (fun _ => (.error "timeout" : Except String Nat))
        "Failed to fetch papers").1 =
        .error ("Failed to fetch papers" ++ ": " ++ "timeout")
    ∧ apiConfig.retry = ⟨3, 1000, 2⟩ :=
  C3_single_attempt_no_retry (fun _ => .error "timeout")
    "Failed to fetch papers" "timeout" rfl

/-- Witness for C6: a backend knowing only the arxiv config, queried
for `acl_anthology`, yields the single-fetch trace, no job creation
and the empty list. -/
theorem C6_witness :
    searchPapersRun envArxivOnly paramsQ = ⟨[], [.fetchConfigs], true⟩
    ∧ Event.createJob ⟨"arxiv-default", some "llm", none, none⟩ ∉
        (searchPapersRun envArxivOnly paramsQ).trace :=
  ⟨(C6_no_matching_config_no_job envArxivOnly paramsQ
      [⟨"arxiv-default", "arxiv"⟩] rfl (by decide)).1,
   (C6_no_matching_config_no_job envArxivOnly paramsQ
      [⟨"arxiv-default", "arxiv"⟩] rfl (by decide)).2 _⟩

/-- C7 counterexample: an empty form submission is not rejected
client-side.  `handleSubmit` on an empty query text and an all-blank
URLs textarea produces `query = null` and `urls = null`, and the run
still issues a job-creation request carrying both as empty —
contradicting "every submitted job-creation request has at least one
of query/urls non-empty". -/
theorem C7_counterexample :
    (handleSubmit "" "   " "" "acl_anthology").query = none
    ∧ (handleSubmit "" "   " "" "acl_anthology").urls = none
    ∧ Event.createJob ⟨"acl-default", none, none, none⟩ ∈
        (searchPapersRun envValidating
          (handleSubmit "" "   " "" "acl_anthology")).trace
    ∧ jobCreateHasInput ⟨"acl-default", none, none, none⟩ = false := by
  refine ⟨by decide, by decide, by decide, rfl⟩

/-- C7 (amended): the client performs no query/urls validation: a form
submission whose query text trims to empty and whose URLs textarea
trims to empty still issues a job-creation request with `query = null`
and `urls = null`.  Against a backend enforcing the spec-modelled
validation (such requests are rejected with `InvalidRequest`), the
request is rejected, so no job is created — no polls, no paper
listing — and the call resolves with the empty list. -/
theorem C7_empty_submission_rejected_by_backend (env : Backend)
    (qt ut mt src : String) (cfgs : List CrawlerConfig)
    (cfg : CrawlerConfig)
    (hq : jsTrim qt = "") (hu : jsTrim ut = "")
    (h1 : env.configsList = .ok cfgs)
    (h2 : cfgs.find? (fun c => c.source = jsToLower src) = some cfg)
    (hval : ∀ body, jobCreateHasInput body = false →
      env.jobsCreate body = .error "InvalidRequest") :
    (handleSubmit qt ut mt src).query = none
    ∧ (handleSubmit qt ut mt src).urls = none
    ∧ searchPapersRun env (handleSubmit qt ut mt src) =
        ⟨[], [.fetchConfigs, .createJob
          ⟨cfg.name, none, none,
            if mt = "" then none else parseIntStr mt⟩], true⟩ := by
  have hp : handleSubmit qt ut mt src =
      ⟨none, none, src, if mt = "" then none else parseIntStr mt⟩ := by
    unfold handleSubmit
    simp [hq, hu]
  have hrej := hval ⟨cfg.name, none, none,
      if mt = "" then none else parseIntStr mt⟩ rfl
  refine ⟨by rw [hp], by rw [hp], ?_⟩
  rw [hp]
  simp [searchPapersRun, h1, h2, hrej]

/-- Witness for C7 (amended): the concrete empty submission against the
validating backend. -/
theorem C7_witness :
    (handleSubmit "" " \n " "" "acl_anthology").query = none
    ∧ (handleSubmit "" " \n " "" "acl_anthology").urls = none
    ∧ searchPapersRun envValidating
        (handleSubmit "" " \n " "" "acl_anthology") =
        ⟨[], [.fetchConfigs,
          .createJob ⟨"acl-default", none, none, none⟩], true⟩ :=
  C7_empty_submission_rejected_by_backend envValidating
    "" " \n " "" "acl_anthology" [⟨"acl-default", "acl_anthology"⟩]
    ⟨"acl-default", "acl_anthology"⟩ (by decide) (by decide) rfl
    (by decide)
    (fun body hb => by simp [envValidating, envRunning, hb])

theorem afterCreate_errored_empty (env : Backend)
    (body : CrawlerJobCreate) (jobRes : CreateResponse)
    (h : (afterCreate env body jobRes).errored = true) :
    (afterCreate env body jobRes).papers = [] := by
  unfold afterCreate at h ⊢
  rcases hO : (pollLoop env jobRes.created_ids.head? .pending 0
      MAX_RETRIES).2 with _ | _ | _ | e
  all_goals simp [hO] at h ⊢
  cases hpl : env.papersList with
  | error e => simp [hpl]
  | ok papers => simp [hpl] at h

/-- C8: `searchPapers` never rejects — the embedding is a total
function into a resolved paper list — and on every error path (any
step throwing, the `catch` firing) the call resolves with the empty
list, indistinguishable from a successful search matching zero
papers. -/
theorem C8_error_paths_resolve_empty (env : Backend) (p : SearchParams)
    (h : (searchPapersRun env p).errored = true) :
    (searchPapersRun env p).papers = [] := by
  unfold searchPapersRun at h ⊢
  cases hc : env.configsList with
  | error e => simp [hc]
  | ok cfgs =>
    cases hf : cfgs.find? (fun c => c.source = jsToLower p.source) with
    | none => simp [hc, hf]
    | some cfg =>
      cases hj : env.jobsCreate
          ⟨cfg.name, p.query, p.urls, p.maxPapers⟩ with
      | error e => simp [hc, hf, hj]
      | ok res =>
        simp only [hc, hf, hj] at h ⊢
        exact afterCreate_errored_empty env _ res h

/-- Witness for C8: the failing-job run errored and resolved empty. -/
theorem C8_witness :
    (searchPapersRun envFailed paramsQ).errored = true
    ∧ (searchPapersRun envFailed paramsQ).papers = [] :=
  ⟨by decide, C8_error_paths_resolve_empty envFailed paramsQ
    (by decide)⟩

theorem pollLoop_polls_carry_jid (env : Backend) (jid : Option String) :
    ∀ r k status jid', Event.pollStatus jid' ∈
      (pollLoop env jid status k r).1 → jid' = jid := by
  intro r
  induction r with
  | zero =>
    intro k status jid' h
    by_cases hst : status = .completed <;> simp [pollLoop, hst] at h
  | succ r ih =>
    intro k status jid' h
    by_cases hst : status = .completed
    · simp [pollLoop, hst] at h
    · cases hg : env.jobsGetById jid k with
      | error e =>
        simp [pollLoop, hst, hg] at h
        exact h
      | ok job =>
        by_cases hf : job.status = .failed
        · simp [pollLoop, hst, hg, hf] at h
          exact h
        · rw [pollLoop_step env jid status k r job hst hg hf] at h
          simp only [List.mem_cons] at h
          rcases h with h | h | h
          · cases h
          · cases h; rfl
          · exact ih (k + 1) job.status jid' h

theorem afterCreate_polls_carry_jid (env : Backend)
    (body : CrawlerJobCreate) (jobRes : CreateResponse)
    (jid' : Option String)
    (h : Event.pollStatus jid' ∈ (afterCreate env body jobRes).trace) :
    jid' = jobRes.created_ids.head? := by
  unfold afterCreate at h
  simp only [List.mem_cons, List.mem_append] at h
  rcases h with h | h | h | h
  · cases h
  · cases h
  · exact pollLoop_polls_carry_jid env _ MAX_RETRIES 0 .pending jid' h
  · rcases hO : (pollLoop env jobRes.created_ids.head? .pending 0
        MAX_RETRIES).2 with _ | _ | _ | e
    · rw [hO] at h
      cases hpl : env.papersList with
      | error e => rw [hpl] at h; simp at h
      | ok papers => rw [hpl] at h; simp at h
    · rw [hO] at h; simp at h
    · rw [hO] at h; simp at h
    · rw [hO] at h; simp at h

/-- C9: `searchPapers` takes `created_ids[0]` as the job id with no
emptiness check; under the precondition that `created_ids` has at least
one element, every status poll of the run uses that defined job id
(the undefined-index branch is unreachable). -/
theorem C9_polls_use_defined_job_id (env : Backend) (p : SearchParams)
    (cfgs : List CrawlerConfig) (cfg : CrawlerConfig)
    (res : CreateResponse)
    (h1 : env.configsList = .ok cfgs)
    (h2 : cfgs.find? (fun c => c.source = jsToLower p.source) = some cfg)
    (h3 : env.jobsCreate ⟨cfg.name, p.query, p.urls, p.maxPapers⟩ =
      .ok res)
    (j0 : String) (rest : List String)
    (hids : res.created_ids = j0 :: rest) :
    ∀ jid', Event.pollStatus jid' ∈ (searchPapersRun env p).trace →
      jid' = some j0 := by
  intro jid' hmem
  rw [searchPapersRun_eq_afterCreate env p cfgs cfg res h1 h2 h3] at hmem
  have := afterCreate_polls_carry_jid env _ res jid' hmem
  rw [this, hids]
  rfl

/-- Witness for C9: in the completed concrete run the (single) poll
event carries the defined id `job-1`. -/
theorem C9_witness :
    Event.pollStatus (some "job-1") ∈
      (searchPapersRun envCompleted paramsQ).trace
    ∧ some "job-1" = some "job-1" :=
  ⟨by decide,
   C9_polls_use_defined_job_id envCompleted paramsQ
    [⟨"acl-default", "acl_anthology"⟩] ⟨"acl-default", "acl_anthology"⟩
    ⟨["job-1"]⟩ rfl (by decide) rfl "job-1" [] rfl (some "job-1")
    (by decide)⟩

/-- C10: after a `search` invocation of the `useSearchPapers` hook
completes, `loading` is false whether the underlying search resolved or
threw, and `results` is replaced wholesale: it equals the resolved list
on success and the empty list on error, independent of the previous
state (never an append). -/
theorem C10_hook_resets_loading_replaces_results
    (outcome : Except String (List Paper)) (s0 s1 : HookState) :
    (searchHook outcome s0).loading = false
    ∧ (searchHook outcome s0).results =
        (match outcome with | .ok d => d | .error _ => [])
    ∧ (searchHook outcome s0).results =
        (searchHook outcome s1).results := by
  cases outcome <;> simp [searchHook]
